import Mathlib

/-!
Verification development for the financial-model backend: a shallow embedding of
`app/services/model_runner.py` (the sandboxed execution engine), and of the
model/version persistence endpoints in
`app/api/api_v1/endpoints/financial_models.py` together with the SQLAlchemy
entities in `app/models/financial_model.py`.
-/

namespace ModelRunner

/--
Python runtime values, restricted to the shapes the engine manipulates:
JSON-like data (`none`, `bool`, `int`, `str`, `list`, `dict`), pandas
dataframes (a dataframe is modelled by its ordered rows, each row an ordered
list of column-name/value pairs), imported modules and builtin functions.
Dicts are association lists in insertion order, as in CPython.
-/
inductive Value where
  | none
  | bool (b : Bool)
  | int (n : Int)
  | str (s : String)
  | list (xs : List Value)
  | dict (entries : List (String × Value))
  | dataframe (rows : List (List (String × Value)))
  | module (name : String)
  | builtin (name : String)

/-- `type(v).__name__` for the modelled values. -/
def pyTypeName : Value → String
  | .none => "NoneType"
  | .bool _ => "bool"
  | .int _ => "int"
  | .str _ => "str"
  | .list _ => "list"
  | .dict _ => "dict"
  | .dataframe _ => "DataFrame"
  | .module _ => "module"
  | .builtin _ => "builtin_function_or_method"

/-- Namespaces (`globals_dict`, `locals_dict`) are insertion-ordered string maps. -/
abbrev Namespace := List (String × Value)

/-- Dictionary read: first entry with the given key, as Python dict lookup. -/
def lookupNs (ns : Namespace) (x : String) : Option Value :=
  (ns.find? (fun p => p.1 == x)).map (fun p => p.2)

/--
Python dict item assignment `d[k] = v`: overwrite in place when the key is
present (keeping its position), otherwise append the new pair at the end.
-/
def dictSet (es : List (String × Value)) (k : String) (v : Value) : List (String × Value) :=
  if es.any (fun p => p.1 == k) then
    es.map (fun p => if p.1 == k then (k, v) else p)
  else
    es ++ [(k, v)]

/-- Python `d.update(other)`: item-assign every pair of `other` in order. -/
def dictUpdate (es : List (String × Value)) (other : List (String × Value)) :
    List (String × Value) :=
  other.foldl (fun acc p => dictSet acc p.1 p.2) es

mutual

/--
Structural equality of modelled values (dict entries compared in order).
Used where Python compares identical-layout objects; see `pyEq` for the
order-insensitive dict equality of Python `==`.
-/
def valueBeq : Value → Value → Bool
  | .none, .none => true
  | .bool a, .bool b => a == b
  | .int a, .int b => a == b
  | .str a, .str b => a == b
  | .list xs, .list ys => valueListBeq xs ys
  | .dict es, .dict fs => valueEntriesBeq es fs
  | .dataframe rs, .dataframe ss => valueRowsBeq rs ss
  | .module a, .module b => a == b
  | .builtin a, .builtin b => a == b
  | _, _ => false
termination_by structural v _ => v

def valueListBeq : List Value → List Value → Bool
  | [], [] => true
  | x :: xs, y :: ys => valueBeq x y && valueListBeq xs ys
  | _, _ => false
termination_by structural l _ => l

def valueEntriesBeq : List (String × Value) → List (String × Value) → Bool
  | [], [] => true
  | (k, v) :: es, (k', v') :: fs => k == k' && valueBeq v v' && valueEntriesBeq es fs
  | _, _ => false
termination_by structural l _ => l

def valueRowsBeq : List (List (String × Value)) → List (List (String × Value)) → Bool
  | [], [] => true
  | r :: rs, s :: ss => valueEntriesBeq r s && valueRowsBeq rs ss
  | _, _ => false
termination_by structural l _ => l

end

instance : BEq Value := ⟨valueBeq⟩

mutual

/--
Python `==` on the JSON-like values stored as model parameters: deep value
equality, with dict comparison insensitive to key order (equal key sets with
`==`-equal values), exactly the comparison `model_in.parameters !=
model.parameters` performs on JSON dicts.
-/
def pyEq : Value → Value → Bool
  | .none, .none => true
  | .bool a, .bool b => a == b
  | .int a, .int b => a == b
  | .str a, .str b => a == b
  | .list xs, .list ys => pyEqList xs ys
  | .dict es, .dict fs => es.length == fs.length && pyEqEntries es fs
  | .dataframe rs, .dataframe ss => valueRowsBeq rs ss
  | .module a, .module b => a == b
  | .builtin a, .builtin b => a == b
  | _, _ => false
termination_by structural v _ => v

def pyEqList : List Value → List Value → Bool
  | [], [] => true
  | x :: xs, y :: ys => pyEq x y && pyEqList xs ys
  | _, _ => false
termination_by structural l _ => l

def pyEqEntries : List (String × Value) → List (String × Value) → Bool
  | [], _ => true
  | (k, v) :: es, fs =>
    (match fs.find? (fun p => p.1 == k) with
     | some p => pyEq v p.2
     | Option.none => false) && pyEqEntries es fs
termination_by structural l _ => l

end

/-- A raised Python exception: runtime type name and message. -/
structure PyError where
  type : String
  message : String
deriving DecidableEq

/--
Models the `except Exception` clause of `run_model`: every exception class is
caught except the `BaseException`-only classes, which do not derive from
`Exception` and therefore propagate past the handler.
-/
def exceptionCatches (t : String) : Bool :=
  !(t == "SystemExit" || t == "KeyboardInterrupt" || t == "GeneratorExit")

/--
Expressions of the executed code, the fragment the engine claims are about:
literals (a literal dict of constants is a `Value.dict` literal) and name
references resolved against the execution namespaces.
-/
inductive Expr where
  | lit (v : Value)
  | name (x : String)
deriving BEq

/--
Statements of the executed code: assignment to a name, `import m`,
a bare expression, `print(e)`, `raise T(msg)`, and an idealized
`while True: pass` whose execution never terminates.
-/
inductive Stmt where
  | assign (x : String) (e : Expr)
  | importMod (m : String)
  | exprStmt (e : Expr)
  | printExpr (e : Expr)
  | raiseExc (t : String) (msg : String)
  | delName (x : String)
  | whileTrue
deriving BEq

/--
A code string, as seen by `ast.parse`: either text that fails syntax
validation (with the syntax-error message), or a successfully parsed program.
-/
inductive Code where
  | invalid (msg : String)
  | prog (stmts : List Stmt)
deriving BEq

/--
The `code` argument actually passed to `run_model`: a string, or a non-string
object (carrying its type name), for which `ast.parse` raises `TypeError`.
-/
inductive CodeArg where
  | str (c : Code)
  | nonStr (typeName : String)

/--
A finite fragment of the contents of CPython's `builtins` module — the
bindings reachable through `globals()["__builtins__"]` once `exec` has
inserted it.  It contains every name of `ALLOWED_BUILTINS` and, crucially,
names the allowlists never granted, such as `__import__` and `open`.
-/
def pythonBuiltins : Namespace :=
  [("dict", .builtin "dict"), ("list", .builtin "list"), ("tuple", .builtin "tuple"),
   ("set", .builtin "set"), ("int", .builtin "int"), ("float", .builtin "float"),
   ("str", .builtin "str"), ("bool", .builtin "bool"), ("len", .builtin "len"),
   ("range", .builtin "range"), ("enumerate", .builtin "enumerate"), ("zip", .builtin "zip"),
   ("min", .builtin "min"), ("max", .builtin "max"), ("sum", .builtin "sum"),
   ("round", .builtin "round"), ("abs", .builtin "abs"), ("all", .builtin "all"),
   ("any", .builtin "any"), ("sorted", .builtin "sorted"), ("print", .builtin "print"),
   ("__import__", .builtin "__import__"), ("open", .builtin "open"),
   ("eval", .builtin "eval"), ("exec", .builtin "exec"), ("compile", .builtin "compile"),
   ("getattr", .builtin "getattr"), ("setattr", .builtin "setattr"),
   ("globals", .builtin "globals"), ("locals", .builtin "locals"),
   ("vars", .builtin "vars"), ("input", .builtin "input"),
   ("type", .builtin "type"), ("object", .builtin "object"),
   ("Exception", .builtin "Exception"), ("BaseException", .builtin "BaseException"),
   ("SystemExit", .builtin "SystemExit"), ("KeyboardInterrupt", .builtin "KeyboardInterrupt")]

/-- Modules importable in the host environment (installed packages and stdlib). -/
def importableModules : List String :=
  ["os", "sys", "subprocess", "io", "builtins", "pandas", "numpy", "math",
   "datetime", "matplotlib.pyplot", "scipy", "statsmodels"]

/--
CPython semantics of `exec(code, globals_dict, locals_dict)`: when the globals
mapping carries no `__builtins__` key, a reference to the real `builtins`
module is inserted under that key before execution starts.
-/
def injectBuiltins (g : Namespace) : Namespace :=
  match lookupNs g "__builtins__" with
  | some _ => g
  | Option.none => g ++ [("__builtins__", .module "builtins")]

/--
Name resolution inside the executed code: locals first, then globals, then —
if the globals carry the real `builtins` module under `__builtins__` — the
builtins themselves.
-/
def resolveName (g l : Namespace) (x : String) : Option Value :=
  match lookupNs l x with
  | some v => some v
  | Option.none =>
    match lookupNs g x with
    | some v => some v
    | Option.none =>
      match lookupNs g "__builtins__" with
      | some (.module "builtins") => lookupNs pythonBuiltins x
      | _ => Option.none

/-- Evaluate an expression; an unresolvable name raises `NameError`. -/
def evalExpr (g l : Namespace) : Expr → Except PyError Value
  | .lit v => .ok v
  | .name x =>
    match resolveName g l x with
    | some v => .ok v
    | Option.none => .error ⟨"NameError", "name " ++ x ++ " is not defined"⟩

/-- `str(v)` for the purposes of `print`. -/
def pyStr : Value → String
  | .none => "None"
  | .bool true => "True"
  | .bool false => "False"
  | .int n => toString n
  | .str s => s
  | .list _ => "[...]"
  | .dict _ => "{...}"
  | .dataframe _ => "<DataFrame>"
  | .module m => "<module " ++ m ++ ">"
  | .builtin b => "<built-in function " ++ b ++ ">"

/--
Outcome of executing (a suffix of) the program: normal completion, an
uncaught exception, or divergence; each case carries the text written to the
redirected stdout up to that point.
-/
inductive ExecResult where
  | ok (g l : Namespace) (out : String)
  | exc (e : PyError) (g l : Namespace) (out : String)
  | diverge (out : String)

/-- Execute one statement. -/
def execStmt (g l : Namespace) (out : String) : Stmt → ExecResult
  | .assign x e =>
    match evalExpr g l e with
    | .ok v => .ok g (dictSet l x v) out
    | .error err => .exc err g l out
  | .importMod m =>
    -- the import machinery calls `__import__`, found through the
    -- `__builtins__` entry `exec` inserted into the globals
    match lookupNs g "__builtins__" with
    | some (.module "builtins") =>
      if importableModules.contains m then
        .ok g (dictSet l m (.module m)) out
      else
        .exc ⟨"ModuleNotFoundError", "No module named " ++ m⟩ g l out
    | _ => .exc ⟨"ImportError", "__import__ not found"⟩ g l out
  | .exprStmt e =>
    match evalExpr g l e with
    | .ok _ => .ok g l out
    | .error err => .exc err g l out
  | .printExpr e =>
    match resolveName g l "print" with
    | some _ =>
      match evalExpr g l e with
      | .ok v => .ok g l (out ++ pyStr v ++ "\n")
      | .error err => .exc err g l out
    | Option.none => .exc ⟨"NameError", "name print is not defined"⟩ g l out
  | .raiseExc t msg => .exc ⟨t, msg⟩ g l out
  | .delName x =>
    if l.any (fun p => p.1 == x) then
      .ok g (l.filter (fun p => !(p.1 == x))) out
    else
      .exc ⟨"NameError", "name " ++ x ++ " is not defined"⟩ g l out
  | .whileTrue => .diverge out

/-- Execute a statement list in order, stopping at the first exception or divergence. -/
def execStmts (g l : Namespace) (out : String) : List Stmt → ExecResult
  | [] => .ok g l out
  | s :: rest =>
    match execStmt g l out s with
    | .ok g' l' out' => execStmts g' l' out' rest
    | .exc e g' l' out' => .exc e g' l' out'
    | .diverge out' => .diverge out'

/-- `ALLOWED_MODULES` of `model_runner.py`: the module bindings seeded into `globals_dict`. -/
def ALLOWED_MODULES : Namespace :=
  [("pandas", .module "pandas"), ("numpy", .module "numpy"), ("math", .module "math"),
   ("datetime", .module "datetime"), ("matplotlib.pyplot", .module "matplotlib.pyplot"),
   ("scipy", .module "scipy"), ("statsmodels", .module "statsmodels")]

/-- `ALLOWED_BUILTINS` of `model_runner.py`: the builtin bindings seeded into `locals_dict`. -/
def ALLOWED_BUILTINS : Namespace :=
  [("dict", .builtin "dict"), ("list", .builtin "list"), ("tuple", .builtin "tuple"),
   ("set", .builtin "set"), ("int", .builtin "int"), ("float", .builtin "float"),
   ("str", .builtin "str"), ("bool", .builtin "bool"), ("len", .builtin "len"),
   ("range", .builtin "range"), ("enumerate", .builtin "enumerate"), ("zip", .builtin "zip"),
   ("min", .builtin "min"), ("max", .builtin "max"), ("sum", .builtin "sum"),
   ("round", .builtin "round"), ("abs", .builtin "abs"), ("all", .builtin "all"),
   ("any", .builtin "any"), ("sorted", .builtin "sorted"), ("print", .builtin "print")]

/--
`locals_dict = {**ALLOWED_BUILTINS, 'parameters': parameters, 'result': result}`
with `result` the initially empty dict.
-/
def initLocals (parameters : Value) : Namespace :=
  ALLOWED_BUILTINS ++ [("parameters", parameters), ("result", .dict [])]

/--
`ast.parse(code)`: a non-string argument raises `TypeError`, unparseable text
raises `SyntaxError`, otherwise the parsed statements are returned.
-/
def astParse : CodeArg → Except PyError (List Stmt)
  | .str (.invalid msg) => .error ⟨"SyntaxError", msg⟩
  | .str (.prog stmts) => .ok stmts
  | .nonStr t => .error ⟨"TypeError", "expected str, bytes or AST object, got " ++ t⟩

/-- `df.to_dict(orient='records')`: the dataframe as an ordered list of row dicts. -/
def toDictRecords (rows : List (List (String × Value))) : Value :=
  .list (rows.map Value.dict)

/-- The body of the normalization loop: a `pd.DataFrame` value is replaced by its records. -/
def normalizeValue : Value → Value
  | .dataframe rows => toDictRecords rows
  | v => v

/-- `traceback.format_exc()` stand-in: a deterministic rendering of the exception. -/
def formatExc (e : PyError) : String :=
  "Traceback (most recent call last): " ++ e.type ++ ": " ++ e.message

/--
The error record built in the `except` clause:
`{'type': type(e).__name__, 'message': str(e), 'traceback': traceback.format_exc()}`.
-/
def errorRecordValue (e : PyError) : Value :=
  .dict [("type", .str e.type), ("message", .str e.message),
         ("traceback", .str (formatExc e))]

/--
Python item assignment `target[k] = v` on the read-back `result` value: only a
dict supports it; any other value raises `TypeError` (uncaught at this point
of `run_model`, since the guarded `try` block has already been left).
-/
def setItemOutcome (target : Value) (k : String) (v : Value) : Except PyError Value :=
  match target with
  | .dict es => .ok (.dict (dictSet es k v))
  | other =>
    .error ⟨"TypeError", pyTypeName other ++ " object does not support item assignment"⟩

/--
What one call of `run_model` does to its caller: return a value, let an
exception propagate, or never return at all.
-/
inductive RunOutcome where
  | ret (v : Value)
  | raised (e : PyError)
  | hang (out : String)

/--
The code after the `try`/`finally` of `run_model`: attach the captured console
output when non-empty (`if output:`), then attach the error record when an
exception was caught (`if error:`), then return `result`.  These item
assignments are outside the guarded region, so a non-dict `result` makes them
raise to the caller.
-/
def finishRun (result : Value) (error : Option PyError) (output : String) : RunOutcome :=
  match (if output == "" then Except.ok result
         else setItemOutcome result "console_output" (.str output)) with
  | .error e => .raised e
  | .ok r1 =>
    match error with
    | Option.none => .ret r1
    | some e =>
      match setItemOutcome r1 "error" (errorRecordValue e) with
      | .error e2 => .raised e2
      | .ok r2 => .ret r2

/--
The read-back step after a successful `exec`:
`result = locals_dict.get('result', {})`, `figures = locals_dict.get('figures', [])`,
then the loop converting every top-level `pd.DataFrame` value of `result` to
records.  When `result` is not a dict, `result.items()` raises
`AttributeError`, which the surrounding `except Exception` catches — but the
local variable `result` has already been rebound to the non-dict value.
-/
def runModelReadback (l : Namespace) (out : String) : RunOutcome :=
  let result := (lookupNs l "result").getD (.dict [])
  let _figures := (lookupNs l "figures").getD (.list [])
  match result with
  | .dict entries =>
    finishRun (.dict (entries.map (fun p => (p.1, normalizeValue p.2)))) Option.none out
  | other =>
    finishRun other
      (some ⟨"AttributeError", pyTypeName other ++ " object has no attribute items"⟩) out

/--
`run_model(code, parameters)` of `app/services/model_runner.py`, line by line:
seed `globals_dict` from `ALLOWED_MODULES` and `locals_dict` from
`ALLOWED_BUILTINS` plus the `parameters` and (empty) `result` bindings;
redirect stdout; inside `try`: `ast.parse`, `exec`, read back and normalize
`result`; `except Exception` converts the exception into an error record
(`BaseException`-only exceptions propagate); `finally` restores stdout; then
console output and the error record are item-assigned into `result`, which is
returned.  A divergent `exec` never returns, so neither does `run_model`.
-/
def run_model (code : CodeArg) (parameters : Value) : RunOutcome :=
  let globals_dict := ALLOWED_MODULES
  let locals_dict := initLocals parameters
  match astParse code with
  | .error e =>
    if exceptionCatches e.type then finishRun (.dict []) (some e) "" else .raised e
  | .ok stmts =>
    match execStmts (injectBuiltins globals_dict) locals_dict "" stmts with
    | .diverge out => .hang out
    | .exc e _ _ out =>
      if exceptionCatches e.type then finishRun (.dict []) (some e) out else .raised e
    | .ok _ l out => runModelReadback l out

/--
The `financial_models` table row (`app/models/financial_model.py`).  `code`
(a `Text` column) and `parameters` (a `JSON` column) are nullable, as no
column declares `nullable=False`; a stored code string is embedded as a
`Code`.  Server-maintained timestamp columns are outside the claims and are
omitted.
-/
structure FinancialModel where
  id : Nat
  name : String
  description : Option String
  model_type : String
  code : Option Code
  parameters : Option Value
  owner_id : Nat
  is_public : Bool

/--
The `model_versions` table row.  `model_id` is a nullable foreign key to
`financial_models.id`.
-/
structure ModelVersion where
  id : Nat
  model_id : Option Nat
  version_number : Nat
  code : Option Code
  parameters : Option Value
  description : Option String

/-- The persistent store: both tables plus their autoincrement counters. -/
structure Db where
  models : List FinancialModel
  versions : List ModelVersion
  nextModelId : Nat
  nextVersionId : Nat

/-- The empty store. -/
def Db.empty : Db := ⟨[], [], 0, 0⟩

/-- `model.versions`: the Version rows whose foreign key references the Model. -/
def modelVersions (db : Db) (mid : Nat) : List ModelVersion :=
  db.versions.filter (fun v => v.model_id == some mid)

/-- `FinancialModelCreate` (pydantic schema): all content fields are required. -/
structure FinancialModelCreate where
  name : String
  description : Option String
  model_type : String
  code : Code
  parameters : Value
  is_public : Bool

/--
One optional field of `FinancialModelUpdate` under pydantic `exclude_unset`
semantics: not supplied at all, supplied as an explicit JSON `null`, or
supplied with a value.  The attribute read (`model_in.code`) sees `None` for
both `unset` and `setNull`; only `dict(exclude_unset=True)` distinguishes them.
-/
inductive UpdField (α : Type) where
  | unset
  | setNull
  | set (v : α)
deriving BEq

/-- The pydantic attribute value of the field: `None` unless a value was supplied. -/
def UpdField.attr {α : Type} : UpdField α → Option α
  | .set v => some v
  | _ => Option.none

/--
`FinancialModelUpdate` (pydantic schema).  The change-detection claims only
exercise explicit nulls on `code` and `parameters`, so only those two fields
carry the three-state representation; for the remaining optional fields
`none` stands for "not supplied".
-/
structure FinancialModelUpdate where
  name : Option String := Option.none
  description : Option String := Option.none
  model_type : Option String := Option.none
  code : UpdField Code := .unset
  parameters : UpdField Value := .unset
  is_public : Option Bool := Option.none

/-- Python `!=` between an optional stored code text and a value (`None != x` is `x is not None`). -/
def optCodeNe (a b : Option Code) : Bool :=
  !(a == b)

/-- Python `!=` between optional JSON parameter values, deep `==` on dicts. -/
def optPyNe (a b : Option Value) : Bool :=
  match a, b with
  | Option.none, Option.none => false
  | some x, some y => !(pyEq x y)
  | _, _ => true

/--
The `setattr` loop over `model_in.dict(exclude_unset=True)`: every supplied
field — including one supplied as an explicit null — is written onto the
Model; unsupplied fields are left alone.
-/
def applyUpdate (m : FinancialModel) (u : FinancialModelUpdate) : FinancialModel :=
  { m with
    name := u.name.getD m.name,
    description := match u.description with | some d => some d | Option.none => m.description,
    model_type := u.model_type.getD m.model_type,
    is_public := u.is_public.getD m.is_public,
    code := match u.code with | .unset => m.code | .setNull => Option.none | .set c => some c,
    parameters :=
      match u.parameters with
      | .unset => m.parameters | .setNull => Option.none | .set p => some p }

/--
`create_financial_model` (POST): insert the Model built from the request body,
commit, then insert its initial Version with `version_number = 1` mirroring
the Model's code and parameters, and return the Model.
-/
def create_financial_model (db : Db) (model_in : FinancialModelCreate) (owner_id : Nat) :
    Db × FinancialModel :=
  let model : FinancialModel :=
    { id := db.nextModelId, name := model_in.name, description := model_in.description,
      model_type := model_in.model_type, code := some model_in.code,
      parameters := some model_in.parameters, owner_id := owner_id,
      is_public := model_in.is_public }
  let version : ModelVersion :=
    { id := db.nextVersionId, model_id := some model.id, version_number := 1,
      code := model.code, parameters := model.parameters,
      description := some ("Initial version of " ++ model.name) }
  ({ models := db.models ++ [model], versions := db.versions ++ [version],
     nextModelId := db.nextModelId + 1, nextVersionId := db.nextVersionId + 1 },
   model)

/--
The `version_number` local of `update_financial_model`: starts at 1 and, when
the Model already has versions, becomes
`max([v.version_number for v in model.versions]) + 1`.
-/
def nextVersionNumber (db : Db) (mid : Nat) : Nat :=
  let versions := modelVersions db mid
  if versions.length > 0 then (versions.map (fun v => v.version_number)).foldl Nat.max 0 + 1
  else 1

/--
The `create_new_version` flag of `update_financial_model`:
`(model_in.code is not None and model_in.code != model.code) or
 (model_in.parameters is not None and model_in.parameters != model.parameters)`.
-/
def create_new_version (model : FinancialModel) (model_in : FinancialModelUpdate) : Bool :=
  (match model_in.code.attr with
   | some c => optCodeNe (some c) model.code
   | Option.none => false)
  || (match model_in.parameters.attr with
      | some p => optPyNe (some p) model.parameters
      | Option.none => false)

/--
The `ModelVersion(...)` constructor call of `update_financial_model`: snapshot
of the updated Model under the pre-computed version number, with the
auto-generated description `"Version N of <name>"`.
-/
def builtVersion (vid : Nat) (model' : FinancialModel) (version_number : Nat) : ModelVersion :=
  { id := vid, model_id := some model'.id, version_number := version_number,
    code := model'.code, parameters := model'.parameters,
    description := some ("Version " ++ toString version_number ++ " of " ++ model'.name) }

/--
`update_financial_model` (PUT), line by line: pre-compute the next
`version_number` (`max` of the Model's current version numbers plus one, or 1
when it has none); decide `create_new_version` from
`model_in.code is not None and model_in.code != model.code` or the analogous
deep comparison on parameters; apply the `setattr` loop and commit the Model;
then, only if `create_new_version`, insert a Version snapshotting the
(now updated) Model fields with an auto-generated description.
-/
def update_financial_model (db : Db) (model : FinancialModel) (model_in : FinancialModelUpdate) :
    Db × FinancialModel :=
  let version_number := nextVersionNumber db model.id
  let model' := applyUpdate model model_in
  let db' := { db with models := db.models.map (fun x => if x.id == model.id then model' else x) }
  if create_new_version model model_in then
    let version := builtVersion db'.nextVersionId model' version_number
    ({ db' with versions := db'.versions ++ [version], nextVersionId := db'.nextVersionId + 1 },
     model')
  else
    (db', model')

/--
`delete_financial_model` (DELETE): `db.delete(model); db.commit()`.  The
`versions` relationship declares no delete cascade, so SQLAlchemy's default
applies on parent deletion: the child rows are disassociated — their
`model_id` foreign key is set to NULL — and the Version rows themselves stay
in the store.
-/
def delete_financial_model (db : Db) (model : FinancialModel) : Db :=
  { db with
    models := db.models.filter (fun m => !(m.id == model.id)),
    versions := db.versions.map
      (fun v => if v.model_id == some model.id then { v with model_id := Option.none } else v) }

/-- The `code` column value as the argument `run_model` receives (`None` parses as a non-string). -/
def codeArgOf : Option Code → CodeArg
  | some c => .str c
  | Option.none => .nonStr "NoneType"

/-- The `parameters` column value as the value seeded into the execution namespace. -/
def paramsValueOf : Option Value → Value
  | some v => v
  | Option.none => .none

/--
`run_financial_model` (POST `/{model_id}/run`): `model_params =
model.parameters` aliases the Model's own parameters dict; a truthy
`parameters` body (`if parameters:`) is merged into it **in place** with
`dict.update`, so the mutation is visible on the Model object afterwards —
the returned pair makes that frame effect explicit.  `run_model` is then
called on the Model's code and the merged parameters.  When the Model's
parameters column is null, `.update` on `None` raises `AttributeError` out of
the endpoint.
-/
def run_financial_model (model : FinancialModel)
    (parameters : Option (List (String × Value))) :
    Except PyError (FinancialModel × RunOutcome) :=
  let model_params := model.parameters
  let merged : Except PyError (Option Value) :=
    match parameters with
    | some ov =>
      if ov.isEmpty then .ok model_params
      else
        match model_params with
        | some (.dict es) => .ok (some (.dict (dictUpdate es ov)))
        | some other =>
          .error ⟨"AttributeError", pyTypeName other ++ " object has no attribute update"⟩
        | Option.none => .error ⟨"AttributeError", "NoneType object has no attribute update"⟩
    | Option.none => .ok model_params
  match merged with
  | .error e => .error e
  | .ok mp =>
    let model' := { model with parameters := mp }
    .ok (model', run_model (codeArgOf model.code) (paramsValueOf mp))

/-! ### Theorems about the execution engine -/

/--
C1.  The claim says `run_model` never re-raises for a well-formed call (code a
string, parameters a mapping).  The code at the failing input
`run_model("result = 5", {})` refutes it: the `AttributeError` from
`result.items()` is caught, but by then the local `result` has been rebound to
the integer `5`, and the error-attachment `result['error'] = error` after the
`try` block raises an uncaught `TypeError` to the caller.
-/
theorem c1_result_nondict_raises_typeerror :
    run_model (.str (.prog [.assign "result" (.lit (.int 5))])) (.dict []) =
      .raised ⟨"TypeError", "int object does not support item assignment"⟩ := by
  rfl

/--
C2.  The claim says code referencing a module or builtin outside
`ALLOWED_MODULES` / `ALLOWED_BUILTINS` fails with a reported error and the
disallowed action cannot succeed.  The code refutes it: because
`globals_dict` carries no `__builtins__` key, `exec` inserts the full real
`builtins` module, so the unlisted name `open` resolves and
`import os` — `os` being in no allowlist — succeeds, with `run_model`
returning a normal result carrying no error record at all.
-/
theorem c2_disallowed_import_succeeds :
    lookupNs ALLOWED_MODULES "os" = Option.none
    ∧ lookupNs ALLOWED_BUILTINS "__import__" = Option.none
    ∧ lookupNs ALLOWED_BUILTINS "open" = Option.none
    ∧ resolveName (injectBuiltins ALLOWED_MODULES) (initLocals (.dict [])) "open"
        = some (.builtin "open")
    ∧ run_model
        (.str (.prog [.importMod "os", .assign "result" (.lit (.dict [("ok", .int 1)]))]))
        (.dict [])
        = .ret (.dict [("ok", .int 1)]) :=
  ⟨rfl, rfl, rfl, rfl, rfl⟩

/--
C3 (counterexample).  The claim says every call to `run_model` terminates,
with over-budget code aborted into a TimeoutError-kind result.  On the
concrete input `while True: pass` the call never returns: no budget of any
kind is imposed.
-/
theorem c3_counterexample :
    run_model (.str (.prog [.whileTrue])) (.dict []) = .hang "" := by
  rfl

/--
C3 (amended).  `run_model` enforces no execution budget: whenever execution
of the parsed code diverges, `run_model` itself never returns to the caller,
and no TimeoutError-kind result is produced.
-/
theorem c3_no_timeout (ss : List Stmt) (params : Value) (out : String)
    (h : execStmts (injectBuiltins ALLOWED_MODULES) (initLocals params) "" ss = .diverge out) :
    run_model (.str (.prog ss)) params = .hang out := by
  simp only [run_model, astParse]
  rw [h]

/-- C3 witness: the amended theorem applied at `while True: pass`. -/
theorem c3_no_timeout_witness :
    run_model (.str (.prog [.whileTrue])) (.int 0) = .hang "" :=
  c3_no_timeout [.whileTrue] (.int 0) "" (by rfl)

/--
C4 (counterexample).  The claim says a malformed call — code not a string, or
parameters not a mapping — raises to the immediate caller.  Both malformed
shapes instead return an `ExecutionResult` normally: a `None` code argument
makes `ast.parse` raise `TypeError` inside the guarded block, which is caught
and returned as an error record, and non-mapping parameters are simply seeded
into the namespace, the call completing without any exception.
-/
theorem c4_counterexample :
    run_model (.nonStr "NoneType") (.dict [])
      = .ret (.dict [("error",
          errorRecordValue ⟨"TypeError", "expected str, bytes or AST object, got NoneType"⟩)])
    ∧ run_model (.str (.prog [.assign "result" (.lit (.dict [("a", .int 1)]))])) (.int 5)
      = .ret (.dict [("a", .int 1)]) :=
  ⟨rfl, rfl⟩

/--
C4 (amended).  A call whose code argument is not a string does not raise:
whatever the parameters argument (mapping or not), `run_model` returns an
`ExecutionResult` whose only content is a TypeError-kind error record from
the failed parse; `run_model` performs no contract validation of its own.
-/
theorem c4_malformed_returns_error_result (t : String) (params : Value) :
    run_model (.nonStr t) params =
      .ret (.dict [("error",
        errorRecordValue ⟨"TypeError", "expected str, bytes or AST object, got " ++ t⟩)]) := by
  rfl

/--
C5.  A code string failing static syntax validation is parsed before any
execution and yields a ParseError-kind result (the error record's kind is the
runtime type name `SyntaxError`): for every parameters value, the returned
result mapping holds the error record and nothing else — in particular no
`console_output` key, since nothing executed and nothing was printed.
-/
theorem c5_syntax_error_parse_result (msg : String) (params : Value) :
    run_model (.str (.invalid msg)) params =
      .ret (.dict [("error", errorRecordValue ⟨"SyntaxError", msg⟩)]) := by
  rfl

/-! ### Theorems about the persistence endpoints -/

/-- A sample stored code text: `result = {"a": 1}`. -/
def demoCode : Code := .prog [.assign "result" (.lit (.dict [("a", .int 1)]))]

/-- A sample Model row. -/
def demoModel : FinancialModel :=
  { id := 1, name := "growth", description := Option.none, model_type := "revenue",
    code := some demoCode, parameters := some (.dict [("periods", .int 3)]),
    owner_id := 1, is_public := false }

/-- The sample Model's initial Version row. -/
def demoVersion : ModelVersion :=
  { id := 1, model_id := some 1, version_number := 1, code := some demoCode,
    parameters := some (.dict [("periods", .int 3)]),
    description := some "Initial version of growth" }

/-- A store holding the sample Model and its initial Version. -/
def demoDb : Db :=
  { models := [demoModel], versions := [demoVersion], nextModelId := 2, nextVersionId := 2 }

/--
C8.  The claim says deleting a Model deletes all of its Versions.  At the
failing input — the store holding one Model and its one Version — deleting
the Model removes the Model row but keeps the Version row: the `versions`
relationship declares no delete cascade, so SQLAlchemy's default disassociates
the child by nulling its `model_id` instead of deleting it, leaving an orphan
Version in the store.
-/
theorem c8_delete_orphans_versions :
    (delete_financial_model demoDb demoModel).models = []
    ∧ (delete_financial_model demoDb demoModel).versions
        = [{ demoVersion with model_id := Option.none }]
    ∧ (delete_financial_model demoDb demoModel).versions.length = 1 :=
  ⟨rfl, rfl, rfl⟩

/--
C10.  The run endpoint merges a non-empty override mapping into the Model's
stored parameters dict in place — the Model observed after the call carries
the merged mapping, and `run_model` is invoked on exactly that merged
mapping — while a call without overrides leaves the Model's parameters
untouched.
-/
theorem c10_run_overrides (model : FinancialModel) (ov es : List (String × Value))
    (hov : ov ≠ []) (hp : model.parameters = some (.dict es)) :
    run_financial_model model (some ov) =
      .ok ({ model with parameters := some (.dict (dictUpdate es ov)) },
           run_model (codeArgOf model.code) (.dict (dictUpdate es ov)))
    ∧ run_financial_model model Option.none =
      .ok (model, run_model (codeArgOf model.code) (paramsValueOf model.parameters)) := by
  constructor
  · have hne : ov.isEmpty = false := by
      cases ov with
      | nil => exact absurd rfl hov
      | cons a l => rfl
    simp only [run_financial_model, hp, hne]
    rfl
  · rfl

/-- C10 witness: overriding `{"periods": 3}` with `{"rate": 2}` on the sample Model. -/
theorem c10_run_overrides_witness :
    run_financial_model demoModel (some [("rate", .int 2)]) =
      .ok ({ demoModel with parameters := some (.dict [("periods", .int 3), ("rate", .int 2)]) },
           run_model (codeArgOf demoModel.code) (.dict [("periods", .int 3), ("rate", .int 2)]))
    ∧ run_financial_model demoModel Option.none =
      .ok (demoModel, run_model (codeArgOf demoModel.code) (.dict [("periods", .int 3)])) := by
  have h := c10_run_overrides demoModel [("rate", .int 2)] [("periods", .int 3)]
    (by simp) (by rfl)
  exact ⟨h.1, h.2⟩

/--
C9.  After a successful execution, `run_model` reads the `result` binding
back from the execution namespace — defaulting to an empty mapping when the
executed code has unset it — and returns the mapping with every top-level
dataframe value converted to its ordered list of row mappings
(`to_dict(orient='records')`), plus the captured console text under
`console_output` when non-empty.
-/
theorem c9_readback_normalization (ss : List Stmt) (params : Value) (g l : Namespace)
    (out : String) (es : List (String × Value))
    (hex : execStmts (injectBuiltins ALLOWED_MODULES) (initLocals params) "" ss = .ok g l out)
    (hres : lookupNs l "result" = some (.dict es)
            ∨ (lookupNs l "result" = Option.none ∧ es = [])) :
    run_model (.str (.prog ss)) params =
      .ret (.dict (if out == "" then es.map (fun p => (p.1, normalizeValue p.2))
                   else dictSet (es.map (fun p => (p.1, normalizeValue p.2)))
                          "console_output" (.str out))) := by
  simp only [run_model, astParse]
  rw [hex]
  simp only [runModelReadback]
  have hread : (lookupNs l "result").getD (.dict []) = Value.dict es := by
    rcases hres with h | ⟨h, he⟩
    · rw [h]; rfl
    · rw [h, he]; rfl
  rw [hread]
  simp only [finishRun, setItemOutcome]
  cases hout : out == "" with
  | true => rfl
  | false => rfl

/-- The code of the C9 witness: print, then store a dataframe and an int in `result`. -/
def c9Stmts : List Stmt :=
  [.printExpr (.lit (.str "hi")),
   .assign "result"
     (.lit (.dict [("df", .dataframe [[("a", .int 1)], [("a", .int 2)]]), ("x", .int 7)]))]

/-- The locals left behind by executing `c9Stmts`. -/
def c9Locals : Namespace :=
  dictSet (initLocals (.dict []))
    "result" (.dict [("df", .dataframe [[("a", .int 1)], [("a", .int 2)]]), ("x", .int 7)])

/--
C9 witness: the read-back theorem applied to a concrete run that prints and
stores one dataframe; the dataframe comes back as its records and the console
text is attached.
-/
theorem c9_readback_normalization_witness :
    run_model (.str (.prog c9Stmts)) (.dict []) =
      .ret (.dict [("df", .list [.dict [("a", .int 1)], .dict [("a", .int 2)]]),
                   ("x", .int 7), ("console_output", .str "hi\n")]) := by
  have h := c9_readback_normalization c9Stmts (.dict [])
    (injectBuiltins ALLOWED_MODULES) c9Locals "hi\n"
    [("df", .dataframe [[("a", .int 1)], [("a", .int 2)]]), ("x", .int 7)]
    (by rfl) (Or.inl (by rfl))
  exact h

/--
The change predicate as the claim states it: the update's supplied code
differs from the Model's current code, or its supplied parameters differ from
the current parameters under deep value equality; a field supplied as an
explicit null differs from any non-null stored value.
-/
def incomingDiffers (m : FinancialModel) (u : FinancialModelUpdate) : Bool :=
  (match u.code, m.code with
   | .unset, _ => false
   | .setNull, Option.none => false
   | .setNull, some _ => true
   | .set c, mc => optCodeNe (some c) mc)
  || (match u.parameters, m.parameters with
      | .unset, _ => false
      | .setNull, Option.none => false
      | .setNull, some _ => true
      | .set p, mp => optPyNe (some p) mp)

/-- An update supplying `code` as an explicit JSON null and nothing else. -/
def nullCodeUpdate : FinancialModelUpdate :=
  { code := .setNull }

/--
C6 (counterexample).  The claim says a new Version is created if and only if
the incoming code or parameters differ from the stored ones.  An update whose
body is `{"code": null}` on the sample Model refutes the forward direction:
the incoming (null) code differs from the stored code, and the update really
does change the Model's stored code to null, yet no Version is created —
`model_in.code is not None` treats the explicit null like an absent field,
while the `exclude_unset` `setattr` loop still writes it.
-/
theorem c6_counterexample :
    incomingDiffers demoModel nullCodeUpdate = true
    ∧ (update_financial_model demoDb demoModel nullCodeUpdate).1.versions = demoDb.versions
    ∧ (update_financial_model demoDb demoModel nullCodeUpdate).2.code = Option.none
    ∧ demoModel.code = some demoCode :=
  ⟨rfl, rfl, rfl, rfl⟩

/--
C6 (amended).  For updates that do not supply `code` or `parameters` as an
explicit null, a new Version is created if and only if the incoming code
differs from the stored code or the incoming parameters differ from the
stored parameters under deep value equality; when nothing differs the Version
table is left exactly as it was, while other Model fields (here: `name`) are
still updated.
-/
theorem c6_version_iff (db : Db) (m : FinancialModel) (u : FinancialModelUpdate)
    (hc : u.code ≠ .setNull) (hp : u.parameters ≠ .setNull) :
    ((update_financial_model db m u).1.versions.length = db.versions.length + 1
      ↔ incomingDiffers m u = true)
    ∧ (incomingDiffers m u = false →
        (update_financial_model db m u).1.versions = db.versions)
    ∧ (update_financial_model db m u).2.name = u.name.getD m.name := by
  have hcv : create_new_version m u = incomingDiffers m u := by
    cases hco : u.code with
    | unset =>
      cases hpa : u.parameters with
      | unset => simp [create_new_version, incomingDiffers, UpdField.attr, hco, hpa]
      | setNull => exact absurd hpa hp
      | set p => simp [create_new_version, incomingDiffers, UpdField.attr, hco, hpa]
    | setNull => exact absurd hco hc
    | set c =>
      cases hpa : u.parameters with
      | unset => simp [create_new_version, incomingDiffers, UpdField.attr, hco, hpa]
      | setNull => exact absurd hpa hp
      | set p => simp [create_new_version, incomingDiffers, UpdField.attr, hco, hpa]
  have hname : (update_financial_model db m u).2.name = u.name.getD m.name := by
    unfold update_financial_model
    cases h : create_new_version m u <;> simp [h, applyUpdate]
  refine ⟨?_, ?_, hname⟩
  · unfold update_financial_model
    rw [hcv]
    cases h : incomingDiffers m u with
    | true => simp [h]
    | false => simp [h]
  · intro h0
    unfold update_financial_model
    rw [hcv, h0]
    simp

/--
C6 witness: on the sample Model, an update renaming it while re-supplying the
identical code and parameters creates no Version but applies the rename.
-/
theorem c6_version_iff_witness :
    (update_financial_model demoDb demoModel
        { name := some "renamed", code := .set demoCode,
          parameters := .set (.dict [("periods", .int 3)]) }).1.versions = demoDb.versions
    ∧ (update_financial_model demoDb demoModel
        { name := some "renamed", code := .set demoCode,
          parameters := .set (.dict [("periods", .int 3)]) }).2.name = "renamed" := by
  have h := c6_version_iff demoDb demoModel
    { name := some "renamed", code := .set demoCode,
      parameters := .set (.dict [("periods", .int 3)]) }
    (by simp) (by simp)
  exact ⟨h.2.1 (by rfl), h.2.2⟩

/-- The contiguous version-number sequence `[1, 2, …, n]`. -/
def seq1 (n : Nat) : List Nat :=
  (List.range n).map (fun i => i + 1)

theorem seq1_succ (n : Nat) : seq1 (n + 1) = seq1 n ++ [n + 1] := by
  simp [seq1, List.range_succ]

theorem seq1_foldl_max (n : Nat) : (seq1 n).foldl Nat.max 0 = n := by
  induction n with
  | zero => rfl
  | succ k ih =>
    rw [seq1_succ, List.foldl_append, ih]
    simp [Nat.max_eq_right (Nat.le_succ k)]

theorem seq1_length (n : Nat) : (seq1 n).length = n := by
  simp [seq1]

/--
A sequence of PUT requests against one Model id: each request re-fetches the
Model from the store (as the `get_financial_model` dependency does) and runs
`update_financial_model` on it.
-/
def applyUpdates (mid : Nat) : Db → List FinancialModelUpdate → Db
  | db, [] => db
  | db, u :: us =>
    match db.models.find? (fun m => m.id == mid) with
    | some m => applyUpdates mid (update_financial_model db m u).1 us
    | Option.none => applyUpdates mid db us

theorem applyUpdate_id (m : FinancialModel) (u : FinancialModelUpdate) :
    (applyUpdate m u).id = m.id := rfl

theorem find?_replace (l : List FinancialModel) (mid : Nat) (m m' : FinancialModel)
    (h : l.find? (fun x => x.id == mid) = some m) (hid : m'.id = mid) :
    (l.map (fun x => if x.id == m.id then m' else x)).find? (fun x => x.id == mid)
      = some m' := by
  have hmid : m.id = mid := by
    have := List.find?_some h
    simpa using this
  induction l with
  | nil => simp at h
  | cons a as ih =>
    by_cases ha : a.id = mid
    · rw [List.find?_cons_of_pos _ (by simpa using ha)] at h
      have hma : m = a := by injection h with h'; exact h'.symm
      subst hma
      simp only [List.map_cons]
      rw [if_pos (by simp)]
      exact List.find?_cons_of_pos _ (by simpa using hid)
    · rw [List.find?_cons_of_neg _ (by simpa using ha)] at h
      simp only [List.map_cons]
      rw [if_neg (by simp [hmid, ha])]
      rw [List.find?_cons_of_neg _ (by simpa using ha)]
      exact ih h

theorem nextVersionNumber_eq (db : Db) (mid : Nat) :
    nextVersionNumber db mid
      = ((modelVersions db mid).map (fun v => v.version_number)).foldl Nat.max 0 + 1 := by
  unfold nextVersionNumber
  cases h : modelVersions db mid with
  | nil => simp [h]
  | cons a as => simp [h]

theorem update_models_eq (db : Db) (m : FinancialModel) (u : FinancialModelUpdate) :
    (update_financial_model db m u).1.models
      = db.models.map (fun x => if x.id == m.id then applyUpdate m u else x) := by
  unfold update_financial_model
  cases h : create_new_version m u <;> simp [h]

theorem update_versions_eq (db : Db) (m : FinancialModel) (u : FinancialModelUpdate) :
    (update_financial_model db m u).1.versions
      = (if create_new_version m u then
          db.versions
            ++ [builtVersion db.nextVersionId (applyUpdate m u) (nextVersionNumber db m.id)]
         else db.versions) := by
  unfold update_financial_model
  cases h : create_new_version m u <;> simp [h]

/--
One PUT request preserves the Model's presence in the store and either leaves
its version-number sequence `[1..n]` alone or extends it to `[1..n+1]`.
-/
theorem update_good (db : Db) (mid n : Nat) (m : FinancialModel) (u : FinancialModelUpdate)
    (hfind : db.models.find? (fun x => x.id == mid) = some m)
    (hver : (modelVersions db mid).map (fun v => v.version_number) = seq1 n) :
    ((update_financial_model db m u).1.models.find? (fun x => x.id == mid)
        = some (applyUpdate m u))
    ∧ ((modelVersions (update_financial_model db m u).1 mid).map
          (fun v => v.version_number) = seq1 n
       ∨ (modelVersions (update_financial_model db m u).1 mid).map
            (fun v => v.version_number) = seq1 (n + 1)) := by
  have hmid : m.id = mid := by
    have := List.find?_some hfind
    simpa using this
  have hid' : (applyUpdate m u).id = mid := by rw [applyUpdate_id, hmid]
  have hnum : nextVersionNumber db m.id = n + 1 := by
    rw [hmid, nextVersionNumber_eq, hver, seq1_foldl_max]
  constructor
  · rw [update_models_eq]
    exact find?_replace db.models mid m (applyUpdate m u) hfind hid'
  · cases hflag : create_new_version m u with
    | false =>
      left
      unfold modelVersions
      rw [update_versions_eq, if_neg (by simp [hflag])]
      exact hver
    | true =>
      right
      unfold modelVersions
      rw [update_versions_eq, if_pos hflag]
      rw [List.filter_append, List.map_append]
      have hv : (db.versions.filter (fun v => v.model_id == some mid)).map
          (fun v => v.version_number) = seq1 n := hver
      rw [hv, seq1_succ]
      have hmv : (builtVersion db.nextVersionId (applyUpdate m u)
          (nextVersionNumber db m.id)).model_id = some mid := by
        simp [builtVersion, hid']
      simp [List.filter_cons, hmv, builtVersion, hnum, hid']

/--
Any sequence of PUT requests keeps the version-number sequence of the Model
contiguous from 1.
-/
theorem applyUpdates_good (mid : Nat) (us : List FinancialModelUpdate) (db : Db) (n : Nat)
    (hfind : ∃ m, db.models.find? (fun x => x.id == mid) = some m)
    (hver : (modelVersions db mid).map (fun v => v.version_number) = seq1 n) :
    ∃ n', n ≤ n'
      ∧ (modelVersions (applyUpdates mid db us) mid).map (fun v => v.version_number)
          = seq1 n' := by
  induction us generalizing db n with
  | nil => exact ⟨n, Nat.le_refl n, hver⟩
  | cons u us ih =>
    obtain ⟨m, hm⟩ := hfind
    simp only [applyUpdates]
    rw [hm]
    have h := update_good db mid n m u hm hver
    rcases h.2 with hv | hv
    · exact ih (update_financial_model db m u).1 n ⟨applyUpdate m u, h.1⟩ hv
    · obtain ⟨n', hle, hseq⟩ := ih (update_financial_model db m u).1 (n + 1)
        ⟨applyUpdate m u, h.1⟩ hv
      exact ⟨n', Nat.le_trans (Nat.le_succ n) hle, hseq⟩

/--
C7.  Model creation produces exactly one initial Version, numbered 1 and
mirroring the creation-time code and parameters; after any sequence of
updates the Model's version numbers are exactly `1, 2, …, n` with no gaps and
no reuse; and every update that creates a Version assigns it
`version_number = (max of the Model's existing version numbers, default 0) + 1`.
-/
theorem c7_version_numbering (inp : FinancialModelCreate) (uid : Nat)
    (us : List FinancialModelUpdate) :
    ((modelVersions (create_financial_model Db.empty inp uid).1
        (create_financial_model Db.empty inp uid).2.id).map (fun v => v.version_number)
      = [1]
     ∧ (modelVersions (create_financial_model Db.empty inp uid).1
          (create_financial_model Db.empty inp uid).2.id).map (fun v => v.code)
        = [some inp.code]
     ∧ (modelVersions (create_financial_model Db.empty inp uid).1
          (create_financial_model Db.empty inp uid).2.id).map (fun v => v.parameters)
        = [some inp.parameters])
    ∧ (∃ n, 1 ≤ n
        ∧ (modelVersions
            (applyUpdates (create_financial_model Db.empty inp uid).2.id
              (create_financial_model Db.empty inp uid).1 us)
            (create_financial_model Db.empty inp uid).2.id).map
              (fun v => v.version_number)
          = seq1 n)
    ∧ (∀ (db : Db) (m : FinancialModel) (u : FinancialModelUpdate),
        (update_financial_model db m u).1.versions = db.versions
        ∨ ∃ v, (update_financial_model db m u).1.versions = db.versions ++ [v]
            ∧ v.version_number
              = ((modelVersions db m.id).map (fun w => w.version_number)).foldl Nat.max 0
                + 1) := by
  refine ⟨⟨rfl, rfl, rfl⟩, ?_, ?_⟩
  · exact applyUpdates_good 0 us (create_financial_model Db.empty inp uid).1 1
      ⟨(create_financial_model Db.empty inp uid).2, rfl⟩ rfl
  · intro db m u
    cases hflag : create_new_version m u with
    | false =>
      left
      rw [update_versions_eq, if_neg (by simp [hflag])]
    | true =>
      right
      refine ⟨builtVersion db.nextVersionId (applyUpdate m u) (nextVersionNumber db m.id),
        ?_, ?_⟩
      · rw [update_versions_eq, if_pos hflag]
      · simp [builtVersion, nextVersionNumber_eq db m.id]

end ModelRunner
